import Mathlib

/-!
Verification of the PSE&G scraping client (`custom_components/pseg/api.py`)
against its natural-language specification.

The embedding is shallow: every method of `PSEGApi` that the claims touch is
translated to an executable Lean function over an explicit `State`.  Network
traffic is an `Oracle` supplying, per endpoint, either a `Response` or a
raised network error (`requests.RequestException`).  Calls to `logout`,
`quit`, `fetch_data` and `login` are recorded in an event trace so that
"invoked exactly once"-style claims become statements about trace counts.

The Python regular-expression searches of the source are embedded by a small
backtracking matcher (`mAtoms`) whose primitives are exactly the constructs
the source patterns use: literals, character classes, greedy / lazy stars
over a class, greedy plus, greedy optional single characters, alternation and
one capture group.  Candidate orderings mirror the `re` module: leftmost
match position wins; within a position the most recent choice point is
retried first, greedy quantifiers prefer longer matches, lazy ones shorter,
and alternatives are tried left to right.  Character classes `\d`, `\s` and
`str.isdigit`/`str.lower` are modelled over ASCII; all strings appearing in
the claims are ASCII.
-/

namespace PSEG

/-- ASCII decimal digit value of a character. -/
def dval (c : Char) : Nat := c.toNat - 48

/-- The Python regex class `[.,]` used inside the number patterns. -/
def isSep (c : Char) : Bool := c = '.' || c = ','

/-- Python regex `\s` over ASCII: space, tab, newline, carriage return,
vertical tab, form feed. -/
def isPySpace (c : Char) : Bool :=
  c = ' ' || c = '\t' || c = '\n' || c = '\r' || c = '\x0b' || c = '\x0c'

/-- Character class accepting either of two characters (e.g. `[kK]`). -/
def c2 (a b : Char) (c : Char) : Bool := c = a || c = b

/-- Python regex `.` without DOTALL: any character except newline. -/
def notNl (c : Char) : Bool := c ≠ '\n'

/-- Negated class `[^>]`. -/
def notGt (c : Char) : Bool := c ≠ '>'

/-- Negated class `[^<]`. -/
def notLt (c : Char) : Bool := c ≠ '<'

/-- Class `[\s\S]`: any character at all. -/
def anyCh (_ : Char) : Bool := true

/-- Length of the maximal prefix run of characters satisfying `p`. -/
def countRun (p : Char → Bool) : List Char → Nat
  | [] => 0
  | c :: cs => if p c then countRun p cs + 1 else 0

/-- Python `str.split(sep)` for a one-character separator: the list of
chunks between occurrences of `c` (always non-empty, `[[]]` on `""`). -/
def splitOnChar (c : Char) : List Char → List (List Char)
  | [] => [[]]
  | x :: xs =>
    let r := splitOnChar c xs
    if x = c then [] :: r
    else
      match r with
      | y :: ys => (x :: y) :: ys
      | [] => [[x]]

/-- Strip leading and trailing Python whitespace: `str.strip()`. -/
def pyStrip (s : String) : String :=
  String.mk (((s.data.dropWhile isPySpace).reverse.dropWhile isPySpace).reverse)

/-- Substring containment, as Python's `in` operator on strings. -/
def strContains (s pat : String) : Bool :=
  go s.data pat.data
where
  go : List Char → List Char → Bool
    | s, p => p.isPrefixOf s ||
        match s with
        | [] => false
        | _ :: cs => go cs p

/-- ASCII lower-casing, as `str.lower()` on the URLs of the source. -/
def pyLower (s : String) : String := String.mk (s.data.map Char.toLower)

/-- Atoms of the regular expressions appearing in `api.py`.  `gopen`/`gclose`
delimit the single capture group each source pattern extracts. -/
inductive Atom where
  | lit : List Char → Atom
  | cls : (Char → Bool) → Atom
  | starG : (Char → Bool) → Atom
  | starL : (Char → Bool) → Atom
  | plusG : (Char → Bool) → Atom
  | optC : (Char → Bool) → Atom
  | alt : List Atom → List Atom → Atom
  | gopen : Atom
  | gclose : Atom

/-- Matcher state: remaining input, suffix at the open of the capture group,
and the captured group once closed. -/
structure MSt where
  rest : List Char
  gstart : Option (List Char)
  gcap : Option (List Char)

/-- Backtracking matcher.  The fuel bounds the number of atoms consumed along
one path; every source pattern flattens to fewer than 100 atoms, so fuel 100
never runs out and the matcher agrees with Python `re` on these patterns. -/
def mAtoms : Nat → List Atom → MSt → Option MSt
  | 0, _, _ => none
  | _ + 1, [], st => some st
  | fuel + 1, a :: rest, st =>
    match a with
    | .lit l =>
        if l.isPrefixOf st.rest then
          mAtoms fuel rest { st with rest := st.rest.drop l.length }
        else none
    | .cls p =>
        match st.rest with
        | c :: cs => if p c then mAtoms fuel rest { st with rest := cs } else none
        | [] => none
    | .starG p =>
        let n := countRun p st.rest
        (List.range (n + 1)).reverse.findSome? fun i =>
          mAtoms fuel rest { st with rest := st.rest.drop i }
    | .starL p =>
        let n := countRun p st.rest
        (List.range (n + 1)).findSome? fun i =>
          mAtoms fuel rest { st with rest := st.rest.drop i }
    | .plusG p =>
        let n := countRun p st.rest
        ((List.range n).map (fun i => i + 1)).reverse.findSome? fun i =>
          mAtoms fuel rest { st with rest := st.rest.drop i }
    | .optC p =>
        match st.rest with
        | c :: cs =>
            if p c then
              match mAtoms fuel rest { st with rest := cs } with
              | some r => some r
              | none => mAtoms fuel rest st
            else mAtoms fuel rest st
        | [] => mAtoms fuel rest st
    | .alt xs ys =>
        match mAtoms fuel (xs ++ rest) st with
        | some r => some r
        | none => mAtoms fuel (ys ++ rest) st
    | .gopen => mAtoms fuel rest { st with gstart := some st.rest }
    | .gclose =>
        match st.gstart with
        | some s0 =>
            mAtoms fuel rest { st with gcap := some (s0.take (s0.length - st.rest.length)) }
        | none => none

/-- Try the pattern anchored at the current position; on success return the
matched text (`group(0)`) and the capture (`group(1)`). -/
def matchHere (atoms : List Atom) (s : List Char) : Option (List Char × Option (List Char)) :=
  match mAtoms 100 atoms ⟨s, none, none⟩ with
  | some st => some (s.take (s.length - st.rest.length), st.gcap)
  | none => none

/-- Search as `re.search`: try each start position left to right. -/
def reSearch (atoms : List Atom) : List Char → Option (List Char × Option (List Char))
  | [] => matchHere atoms []
  | c :: cs =>
    match matchHere atoms (c :: cs) with
    | some r => some r
    | none => reSearch atoms cs

/-- Result of `re.search(...).group(1)` as an `Option`. -/
def searchGroup (atoms : List Atom) (s : String) : Option String :=
  match reSearch atoms s.data with
  | some (_, some g) => some (String.mk g)
  | _ => none

/-- Result of `re.search(...).group(0)` as an `Option`. -/
def searchMatch (atoms : List Atom) (s : String) : Option String :=
  match reSearch atoms s.data with
  | some (m, _) => some (String.mk m)
  | none => none

/-- Literal atom from a string. -/
def litS (s : String) : Atom := Atom.lit s.data

/-- The capture `(\d+[.,]?\d*)` shared by the usage and cost patterns. -/
def numberGroup : List Atom :=
  [Atom.gopen, Atom.plusG Char.isDigit, Atom.optC isSep, Atom.starG Char.isDigit, Atom.gclose]

/-- Source line 248:
`class="usage-value">(\d+[.,]?\d*)\s*([kK][Ww][Hh]|[Tt]herms?)<`.
The second group (the unit) is only logged by the source, so it is left
uncaptured here; the atoms still constrain the match identically. -/
def usagePattern : List Atom :=
  litS "class=\"usage-value\">" :: numberGroup ++
    [Atom.starG isPySpace,
     Atom.alt [Atom.cls (c2 'k' 'K'), Atom.cls (c2 'w' 'W'), Atom.cls (c2 'h' 'H')]
              [Atom.cls (c2 't' 'T'), litS "herm", Atom.optC (c2 's' 's')],
     litS "<"]

/-- Source line 257: `class="cost-value">\$?(\d+[.,]?\d*)<`. -/
def costPattern : List Atom :=
  litS "class=\"cost-value\">" :: Atom.optC (c2 '$' '$') :: numberGroup ++ [litS "<"]

/-- Source line 264: `next-meter-reading[^>]*>([^<]+)<`. -/
def datePattern : List Atom :=
  [litS "next-meter-reading", Atom.starG notGt, litS ">",
   Atom.gopen, Atom.plusG notLt, Atom.gclose, litS "<"]

/-- Source line 227, with the section class interpolated:
`<div[^>]*class=".*SECTION.*"[^>]*>([\s\S]*?)</div>\s*</div>`
(`.` does not cross newlines; `[\s\S]` does). -/
def sectionPattern (sectionClass : String) : List Atom :=
  [litS "<div", Atom.starG notGt, litS "class=\"", Atom.starG notNl,
   litS sectionClass, Atom.starG notNl, litS "\"", Atom.starG notGt, litS ">",
   Atom.gopen, Atom.starL anyCh, Atom.gclose,
   litS "</div>", Atom.starG isPySpace, litS "</div>"]

/-- Source line 97: `name="_csrf"\s+value="([^"]+)"`; the token only feeds
the submitted login form, never the client state. -/
def csrfPattern : List Atom :=
  [litS "name=\"_csrf\"", Atom.plusG isPySpace, litS "value=\"",
   Atom.gopen, Atom.plusG (fun c => c ≠ '"'), Atom.gclose, litS "\""]

/-- Source line 155: `class="error-message">([^<]+)<`. -/
def errorMsgPattern : List Atom :=
  [litS "class=\"error-message\">", Atom.gopen, Atom.plusG notLt, Atom.gclose, litS "<"]

/-!
Date normalization (`_format_date`, source lines 348-370).  `strptime` for
the four fixed formats compiles to the regexes
`%Y ↦ \d\d\d\d`, `%m ↦ 1[0-2]|0[1-9]|[1-9]`, `%d ↦ 3[01]|[12]\d|0[1-9]|[1-9]`,
`%b ↦ jan|feb|…` (case-insensitive), a literal for everything else and `\s+`
for a format-string space; the match must consume the whole input and the
resulting (year, month, day) must be a valid proleptic-Gregorian date with
year ≥ 1.  In these formats each numeric alternation is followed by a
delimiter or the end, never by a digit, so taking the first alternative that
matches is equivalent to the regex backtracking order; the parsers below do
exactly that.
-/

/-- Directive `%Y`: exactly four digits. -/
def parseY4 : List Char → Option (Nat × List Char)
  | a :: b :: c :: d :: rest =>
    if a.isDigit && b.isDigit && c.isDigit && d.isDigit then
      some (1000 * dval a + 100 * dval b + 10 * dval c + dval d, rest)
    else none
  | _ => none

/-- Directive `%m`: `1[0-2]|0[1-9]|[1-9]`, alternatives in strptime order. -/
def parseMonthAlt : List Char → Option (Nat × List Char)
  | c1 :: c2 :: rest =>
    if c1 = '1' && c2.isDigit && dval c2 ≤ 2 then some (10 + dval c2, rest)
    else if c1 = '0' && c2.isDigit && 1 ≤ dval c2 then some (dval c2, rest)
    else if c1.isDigit && 1 ≤ dval c1 then some (dval c1, c2 :: rest)
    else none
  | [c1] => if c1.isDigit && 1 ≤ dval c1 then some (dval c1, []) else none
  | [] => none

/-- Directive `%d`: `3[01]|[12]\d|0[1-9]|[1-9]`, alternatives in strptime order. -/
def parseDayAlt : List Char → Option (Nat × List Char)
  | c1 :: c2 :: rest =>
    if c1 = '3' && (c2 = '0' || c2 = '1') then some (30 + dval c2, rest)
    else if (c1 = '1' || c1 = '2') && c2.isDigit then some (10 * dval c1 + dval c2, rest)
    else if c1 = '0' && c2.isDigit && 1 ≤ dval c2 then some (dval c2, rest)
    else if c1.isDigit && 1 ≤ dval c1 then some (dval c1, c2 :: rest)
    else none
  | [c1] => if c1.isDigit && 1 ≤ dval c1 then some (dval c1, []) else none
  | [] => none

/-- Directive `%b`: case-insensitive three-letter month abbreviation. -/
def monthOfAbbrev (l : List Char) : Option Nat :=
  let t := String.mk (l.map Char.toLower)
  if t = "jan" then some 1 else if t = "feb" then some 2
  else if t = "mar" then some 3 else if t = "apr" then some 4
  else if t = "may" then some 5 else if t = "jun" then some 6
  else if t = "jul" then some 7 else if t = "aug" then some 8
  else if t = "sep" then some 9 else if t = "oct" then some 10
  else if t = "nov" then some 11 else if t = "dec" then some 12
  else none

/-- Regex `\s+` for a space in the format string: at least one whitespace. -/
def skipWs1 : List Char → Option (List Char)
  | c :: cs => if isPySpace c then some (cs.dropWhile isPySpace) else none
  | [] => none

/-- Gregorian leap year, as `datetime`. -/
def isLeap (y : Nat) : Bool := (y % 4 = 0 && y % 100 ≠ 0) || y % 400 = 0

/-- Days in a month, as `datetime`. -/
def monthLen (y m : Nat) : Nat :=
  if m = 2 then (if isLeap y then 29 else 28)
  else if m = 4 || m = 6 || m = 9 || m = 11 then 30
  else 31

/-- Validation of the `datetime(y, m, d)` constructor (`MINYEAR = 1`). -/
def validYMD (y m d : Nat) : Bool :=
  1 ≤ y && y ≤ 9999 && 1 ≤ m && m ≤ 12 && 1 ≤ d && d ≤ monthLen y m

/-- Validated date triple. -/
def mkYMD (y m d : Nat) : Option (Nat × Nat × Nat) :=
  if validYMD y m d then some (y, m, d) else none

/-- Model of `strptime(s, "%Y-%m-%d")`. -/
def parseISO (s : List Char) : Option (Nat × Nat × Nat) :=
  match parseY4 s with
  | some (y, '-' :: r1) =>
    match parseMonthAlt r1 with
    | some (m, '-' :: r2) =>
      match parseDayAlt r2 with
      | some (d, []) => mkYMD y m d
      | _ => none
    | _ => none
  | _ => none

/-- Model of `strptime(s, "%m/%d/%Y")`. -/
def parseMDY (s : List Char) : Option (Nat × Nat × Nat) :=
  match parseMonthAlt s with
  | some (m, '/' :: r1) =>
    match parseDayAlt r1 with
    | some (d, '/' :: r2) =>
      match parseY4 r2 with
      | some (y, []) => mkYMD y m d
      | _ => none
    | _ => none
  | _ => none

/-- Model of `strptime(s, "%d/%m/%Y")`. -/
def parseDMY (s : List Char) : Option (Nat × Nat × Nat) :=
  match parseDayAlt s with
  | some (d, '/' :: r1) =>
    match parseMonthAlt r1 with
    | some (m, '/' :: r2) =>
      match parseY4 r2 with
      | some (y, []) => mkYMD y m d
      | _ => none
    | _ => none
  | _ => none

/-- Model of `strptime(s, "%b %d, %Y")`. -/
def parseBDY (s : List Char) : Option (Nat × Nat × Nat) :=
  match s with
  | c1 :: c2 :: c3 :: rest =>
    match monthOfAbbrev [c1, c2, c3] with
    | some m =>
      match skipWs1 rest with
      | some r1 =>
        match parseDayAlt r1 with
        | some (d, ',' :: r2) =>
          match skipWs1 r2 with
          | some r3 =>
            match parseY4 r3 with
            | some (y, []) => mkYMD y m d
            | _ => none
          | none => none
        | _ => none
      | none => none
    | none => none
  | _ => none

/-- The format loop of `_format_date`: the four formats in source order,
first success wins. -/
def tryParseDate (s : List Char) : Option (Nat × Nat × Nat) :=
  match parseISO s with
  | some r => some r
  | none =>
    match parseMDY s with
    | some r => some r
    | none =>
      match parseDMY s with
      | some r => some r
      | none => parseBDY s

/-- Zero-pad to two digits, as strftime `%m` / `%d`. -/
def pad2 (n : Nat) : String := if n < 10 then "0" ++ toString n else toString n

/-- Emission as `parsed_date.strftime("%Y-%m-%d")`.  On glibc `%Y` is the year without
padding (years below 1000 print short); months and days are zero-padded. -/
def emitDate : Nat × Nat × Nat → String
  | (y, m, d) => toString y ++ "-" ++ pad2 m ++ "-" ++ pad2 d

/-- Model of `_format_date` (source lines 348-370).  An empty (falsy) string returns
`None`; a `T` splits off a time component and only the part before the first
`T` is parsed; an unparseable date part returns the original string. -/
def formatDate (dateStr : String) : Option String :=
  if dateStr = "" then none
  else
    let datePart :=
      if dateStr.data.contains 'T' then (splitOnChar 'T' dateStr.data).headD []
      else dateStr.data
    match tryParseDate datePart with
    | some ymd => some (emitDate ymd)
    | none => some dateStr

/-!
Numeric value parsing for the getters (source lines 372-426).  Each getter
filters the stored string down to digits and decimal points
(`c.isdigit() or c == '.'`) and applies `float`.  On such filtered strings
`float` accepts exactly `d+`, `d+.d*` and `d*.d+` and its mathematical value
is the decimal value, modelled here in `ℚ`; everything else (empty string,
more than one dot, a lone dot) raises `ValueError`, modelled as `none`.
-/

/-- Value of a digit string. -/
def natOfDigits (l : List Char) : Nat := l.foldl (fun n c => n * 10 + dval c) 0

/-- Model of `float(s)` for strings drawn from digits and dots. -/
def pyFloatDigits (s : String) : Option ℚ :=
  match splitOnChar '.' s.data with
  | [a] =>
    if a.all Char.isDigit && !a.isEmpty then some ((natOfDigits a : ℚ))
    else none
  | [a, b] =>
    if a.all Char.isDigit && b.all Char.isDigit && (!a.isEmpty || !b.isEmpty) then
      some ((natOfDigits a : ℚ) + (natOfDigits b : ℚ) / (10 : ℚ) ^ b.length)
    else none
  | _ => none

/-- The digits-and-dot filter of the getters:
`"".join(c for c in v if c.isdigit() or c == '.')`. -/
def filterNumeric (s : String) : String :=
  String.mk (s.data.filter (fun c => c.isDigit || c = '.'))

/-!
Client state machine.  `State` holds the attributes set by `__init__`; the
`requests.Session` is modelled by its cookie jar and a closed flag.  Python
exceptions are `Exc.net` (a `requests.RequestException`) or `Exc.pseg`
(a `PSEGError`); field truthiness (`if usage:` on `Optional[str]`) is
`truthy`.
-/

/-- Python exceptions distinguished by the source's handlers. -/
inductive Exc where
  | net : String → Exc
  | pseg : String → Exc
deriving DecidableEq, Repr

/-- Whether an exception is a `PSEGError`. -/
def Exc.isPseg : Exc → Bool
  | .pseg _ => true
  | .net _ => false

/-- Trace events recording the calls the claims count. -/
inductive Event where
  | loginCall : Event
  | logoutCall : Event
  | quitCall : Event
  | fetchCall : Event
deriving DecidableEq, Repr

/-- An HTTP response as the source inspects it: status code, final URL after
redirects, body text, and the cookies the session absorbs. -/
structure Response where
  status : Nat
  url : String
  text : String
  respCookies : List String
deriving DecidableEq, Repr

/-- Outcome of one request: a response, or a raised network error. -/
def ReqResult : Type := Except String Response

instance instDecEqExcept {e a : Type} [DecidableEq e] [DecidableEq a] :
    DecidableEq (Except e a) := fun x y =>
  match x, y with
  | .error u, .error v =>
    if h : u = v then isTrue (by rw [h]) else isFalse (by intro hc; cases hc; exact h rfl)
  | .ok u, .ok v =>
    if h : u = v then isTrue (by rw [h]) else isFalse (by intro hc; cases hc; exact h rfl)
  | .error _, .ok _ => isFalse (by intro hc; cases hc)
  | .ok _, .error _ => isFalse (by intro hc; cases hc)

instance : DecidableEq ReqResult := fun a b =>
  @instDecEqExcept String Response _ _ a b

/-- Fixed responses for the at-most-six requests one `fetch_data` cycle can
issue (three inside `login`, then the dashboard and the two category pages). -/
structure Oracle where
  loginPage : ReqResult
  loginPost : ReqResult
  loginDashCheck : ReqResult
  dashboard : ReqResult
  electricPage : ReqResult
  gasPage : ReqResult

/-- The attributes of a `PSEGApi` instance. -/
structure State where
  username : String
  password : String
  authenticated : Bool
  electric_reading_date : Option String
  electric_usage : Option String
  electric_cost : Option String
  gas_reading_date : Option String
  gas_usage : Option String
  gas_cost : Option String
  auth_token : Option String
  cookies : List String
  sessionClosed : Bool
deriving DecidableEq, Repr

/-- Model of `__init__`: fresh session, nothing fetched, not authenticated. -/
def initState (u p : String) : State :=
  { username := u, password := p, authenticated := false,
    electric_reading_date := none, electric_usage := none, electric_cost := none,
    gas_reading_date := none, gas_usage := none, gas_cost := none,
    auth_token := none, cookies := [], sessionClosed := false }

/-- Python truthiness of an `Optional[str]` field: set and non-empty. -/
def truthy : Option String → Bool
  | none => false
  | some v => !(v == "")

/-- A successful request merges the response cookies into the session jar. -/
def addCookies (s : State) (r : Response) : State :=
  { s with cookies := s.cookies ++ r.respCookies }

/-- Model of `logout` (source lines 448-457): clear the cookie jar, drop the
authenticated flag and the token; errors are swallowed, and the session is
not closed — `quit` is never called here. -/
def logout (s : State) : State × List Event :=
  ({ s with cookies := [], authenticated := false, auth_token := none },
   [Event.logoutCall])

/-- Model of `quit` (source lines 459-466): close the session, swallowing errors. -/
def quit (s : State) : State × List Event :=
  ({ s with sessionClosed := true }, [Event.quitCall])

/-- The form submitted by `login`; the CSRF token extracted from the login
page is appended when present.  The form is sent to the oracle-driven
endpoint and has no further effect on the client state. -/
def loginFormData (s : State) (csrf : Option String) : List (String × String) :=
  [("username", s.username), ("password", s.password)] ++
    (match csrf with
     | some t => [("_csrf", t)]
     | none => [])

/-- Body of `login` (source lines 77-161), before its two `except` clauses.
Mirrors the source: reset the session, load the login page, extract the CSRF
token, post the form, test for a dashboard redirect, otherwise probe the
dashboard, otherwise mark unauthenticated and raise. -/
def loginBody (o : Oracle) (s : State) : Except Exc Bool × State :=
  let s1 : State := { s with cookies := [], sessionClosed := false }
  match o.loginPage with
  | .error m => (.error (.net m), s1)
  | .ok page =>
    let s2 := addCookies s1 page
    if page.status ≠ 200 then
      (.error (.pseg ("Failed to load login page: " ++ toString page.status)), s2)
    else
      let csrf := searchGroup csrfPattern page.text
      let _form := loginFormData s2 csrf
      match o.loginPost with
      | .error m => (.error (.net m), s2)
      | .ok resp =>
        let s3 := addCookies s2 resp
        if strContains resp.url "https://nj.myaccount.pseg.com/dashboard" ||
            strContains resp.url "dashboard" then
          (.ok true, { s3 with authenticated := true })
        else
          match o.loginDashCheck with
          | .error m => (.error (.net m), s3)
          | .ok dresp =>
            let s4 := addCookies s3 dresp
            if dresp.status = 200 && !(strContains (pyLower dresp.url) "login") then
              (.ok true, { s4 with authenticated := true })
            else
              let s5 := { s4 with authenticated := false }
              match searchGroup errorMsgPattern resp.text with
              | some m => (.error (.pseg ("Login failed: " ++ pyStrip m)), s5)
              | none => (.error (.pseg "Login failed - authentication unsuccessful"), s5)

/-- The `except` clauses of `login` (source lines 163-168): a
`RequestException` and any other exception are both re-raised as `PSEGError`. -/
def wrapLoginExc : Exc → Exc
  | .net m => .pseg ("Network error during login: " ++ m)
  | .pseg m => .pseg ("Unexpected error during login: " ++ m)

/-- Model of `login` (source lines 75-168). -/
def login (o : Oracle) (s : State) : Except Exc Bool × State × List Event :=
  match loginBody o s with
  | (.ok b, s1) => (.ok b, s1, [Event.loginCall])
  | (.error e, s1) => (.error (wrapLoginExc e), s1, [Event.loginCall])

/-- Model of `_update_utility_data` (source lines 206-221): write each field only when
the newly extracted value is truthy. -/
def updateUtilityData (utilityType : String) (usage cost readingDate : Option String)
    (s : State) : State :=
  if utilityType = "electric" then
    let s1 := if truthy usage then { s with electric_usage := usage } else s
    let s2 := if truthy cost then { s1 with electric_cost := cost } else s1
    if truthy readingDate then { s2 with electric_reading_date := readingDate } else s2
  else if utilityType = "gas" then
    let s1 := if truthy usage then { s with gas_usage := usage } else s
    let s2 := if truthy cost then { s1 with gas_cost := cost } else s1
    if truthy readingDate then { s2 with gas_reading_date := readingDate } else s2
  else s

/-- Model of `_extract_data_from_html` (source lines 240-273): three independent regex
searches; a found usage or cost has its commas removed, a found date text is
stripped and normalized.  All embedded operations are total, so the source's
`except` wrapper has nothing to catch. -/
def extractDataFromHtml (htmlContent : String) (_utilityType : String) :
    Option String × Option String × Option String :=
  let usage := (searchGroup usagePattern htmlContent).map
    (fun g => String.mk (g.data.filter (fun c => c ≠ ',')))
  let cost := (searchGroup costPattern htmlContent).map
    (fun g => String.mk (g.data.filter (fun c => c ≠ ',')))
  let readingDate :=
    match searchGroup datePattern htmlContent with
    | some g => formatDate (pyStrip g)
    | none => none
  (usage, cost, readingDate)

/-- Model of `_extract_and_process_section` (source lines 223-238): when the section
regex misses, return with the state untouched; otherwise extract from the
whole match (`group(0)`) and update. -/
def extractAndProcessSection (htmlContent sectionClass utilityType : String)
    (s : State) : State :=
  match searchMatch (sectionPattern sectionClass) htmlContent with
  | none => s
  | some sectionContent =>
    let ex := extractDataFromHtml sectionContent utilityType
    updateUtilityData utilityType ex.1 ex.2.1 ex.2.2 s

/-- Model of `_fetch_dashboard_data` (source lines 275-294): a failed or non-200
request leaves the state unchanged (all errors are caught and logged). -/
def fetchDashboardData (r : ReqResult) (s : State) : State :=
  match r with
  | .error _ => s
  | .ok resp =>
    let s1 := addCookies s resp
    if resp.status ≠ 200 then s1
    else
      let s2 := extractAndProcessSection resp.text "electric-section" "electric" s1
      extractAndProcessSection resp.text "gas-section" "gas" s2

/-- Model of `_fetch_electric_data` (source lines 296-320): extract from the electric
page and fill only the still-falsy fields. -/
def fetchElectricData (r : ReqResult) (s : State) : State :=
  match r with
  | .error _ => s
  | .ok resp =>
    let s1 := addCookies s resp
    if resp.status ≠ 200 then s1
    else
      let ex := extractDataFromHtml resp.text "electric"
      let s2 := if truthy ex.1 && !(truthy s1.electric_usage) then
          { s1 with electric_usage := ex.1 } else s1
      let s3 := if truthy ex.2.1 && !(truthy s2.electric_cost) then
          { s2 with electric_cost := ex.2.1 } else s2
      if truthy ex.2.2 && !(truthy s3.electric_reading_date) then
        { s3 with electric_reading_date := ex.2.2 } else s3

/-- Model of `_fetch_gas_data` (source lines 322-346), symmetric to the electric page. -/
def fetchGasData (r : ReqResult) (s : State) : State :=
  match r with
  | .error _ => s
  | .ok resp =>
    let s1 := addCookies s resp
    if resp.status ≠ 200 then s1
    else
      let ex := extractDataFromHtml resp.text "gas"
      let s2 := if truthy ex.1 && !(truthy s1.gas_usage) then
          { s1 with gas_usage := ex.1 } else s1
      let s3 := if truthy ex.2.1 && !(truthy s2.gas_cost) then
          { s2 with gas_cost := ex.2.1 } else s2
      if truthy ex.2.2 && !(truthy s3.gas_reading_date) then
        { s3 with gas_reading_date := ex.2.2 } else s3

/-- The mapping `fetch_data` returns (source lines 187-194). -/
structure Readings where
  electric_reading_date : Option String
  electric_usage : Option String
  electric_cost : Option String
  gas_reading_date : Option String
  gas_usage : Option String
  gas_cost : Option String
deriving DecidableEq, Repr

/-- Package the current state fields as the returned mapping. -/
def readingsOf (s : State) : Readings :=
  { electric_reading_date := s.electric_reading_date,
    electric_usage := s.electric_usage,
    electric_cost := s.electric_cost,
    gas_reading_date := s.gas_reading_date,
    gas_usage := s.gas_usage,
    gas_cost := s.gas_cost }

/-- The `except` clauses of `fetch_data` (source lines 195-201): a
`RequestException` drops the authenticated flag and wraps; any other
exception wraps without touching the flag. -/
def fetchDataHandlers (e : Exc) (s : State) : State × Exc :=
  match e with
  | .net m => ({ s with authenticated := false }, .pseg ("Network error fetching data: " ++ m))
  | .pseg m => (s, .pseg ("Error fetching data: " ++ m))

/-- Lines 176-194 of `fetch_data`: dashboard extraction, then each category
page whenever that category still has a falsy field, then the merged mapping. -/
def fetchCore (o : Oracle) (s1 : State) : State :=
  let s2 := fetchDashboardData o.dashboard s1
  let s3 :=
    if !(truthy s2.electric_usage) || !(truthy s2.electric_cost) ||
        !(truthy s2.electric_reading_date) then
      fetchElectricData o.electricPage s2
    else s2
  if !(truthy s3.gas_usage) || !(truthy s3.gas_cost) ||
      !(truthy s3.gas_reading_date) then
    fetchGasData o.gasPage s3
  else s3

/-- The whole `try` block of `fetch_data` (source lines 172-194): log in when
not authenticated (an exception from `login` aborts the body), then run the
extraction chain. -/
def fetchBody (o : Oracle) (s : State) : Except Exc Readings × State × List Event :=
  if s.authenticated then
    (.ok (readingsOf (fetchCore o s)), fetchCore o s, [])
  else
    match login o s with
    | (.error e, s1, t1) => (.error e, s1, t1)
    | (.ok _, s1, t1) => (.ok (readingsOf (fetchCore o s1)), fetchCore o s1, t1)

/-- Model of `fetch_data` (source lines 170-204): the `try` body, the two `except`
clauses re-raising as `PSEGError`, and the `finally` block calling `logout`
on every path. -/
def fetchData (o : Oracle) (s : State) : Except Exc Readings × State × List Event :=
  match fetchBody o s with
  | (.error e, s1, t1) =>
    let s2 := (fetchDataHandlers e s1).1
    (.error (fetchDataHandlers e s1).2, (logout s2).1,
      Event.fetchCall :: (t1 ++ (logout s2).2))
  | (.ok r, s1, t1) =>
    (.ok r, (logout s1).1, Event.fetchCall :: (t1 ++ (logout s1).2))

/-- The shared numeric tail of the usage/cost getters: on a truthy stored
string, filter to digits and dots and apply `float`; a falsy field or a
`ValueError` yields `None`. -/
def parseNumericField : Option String → Option ℚ
  | some v => if v ≠ "" then pyFloatDigits (filterNumeric v) else none
  | none => none

/-- Model of `get_electric_usage` (source lines 372-384): fetch lazily when the field
is `None`; a `PSEGError` from the fetch or a `ValueError` from parsing gives
`None`; an uncaught `RequestException` would propagate. -/
def getElectricUsage (o : Oracle) (s : State) :
    Except Exc (Option ℚ) × State × List Event :=
  if s.electric_usage = none then
    match fetchData o s with
    | (.error (.pseg _), s1, t) => (.ok none, s1, t)
    | (.error (.net m), s1, t) => (.error (.net m), s1, t)
    | (.ok _, s1, t) => (.ok (parseNumericField s1.electric_usage), s1, t)
  else (.ok (parseNumericField s.electric_usage), s, [])

/-- Model of `get_electric_cost` (source lines 386-398). -/
def getElectricCost (o : Oracle) (s : State) :
    Except Exc (Option ℚ) × State × List Event :=
  if s.electric_cost = none then
    match fetchData o s with
    | (.error (.pseg _), s1, t) => (.ok none, s1, t)
    | (.error (.net m), s1, t) => (.error (.net m), s1, t)
    | (.ok _, s1, t) => (.ok (parseNumericField s1.electric_cost), s1, t)
  else (.ok (parseNumericField s.electric_cost), s, [])

/-- Model of `get_gas_usage` (source lines 400-412). -/
def getGasUsage (o : Oracle) (s : State) :
    Except Exc (Option ℚ) × State × List Event :=
  if s.gas_usage = none then
    match fetchData o s with
    | (.error (.pseg _), s1, t) => (.ok none, s1, t)
    | (.error (.net m), s1, t) => (.error (.net m), s1, t)
    | (.ok _, s1, t) => (.ok (parseNumericField s1.gas_usage), s1, t)
  else (.ok (parseNumericField s.gas_usage), s, [])

/-- Model of `get_gas_cost` (source lines 414-426). -/
def getGasCost (o : Oracle) (s : State) :
    Except Exc (Option ℚ) × State × List Event :=
  if s.gas_cost = none then
    match fetchData o s with
    | (.error (.pseg _), s1, t) => (.ok none, s1, t)
    | (.error (.net m), s1, t) => (.error (.net m), s1, t)
    | (.ok _, s1, t) => (.ok (parseNumericField s1.gas_cost), s1, t)
  else (.ok (parseNumericField s.gas_cost), s, [])

/-- Model of `get_electric_read_date` (source lines 428-436): fetch lazily when
`None`, then return the stored field itself. -/
def getElectricReadDate (o : Oracle) (s : State) :
    Except Exc (Option String) × State × List Event :=
  if s.electric_reading_date = none then
    match fetchData o s with
    | (.error (.pseg _), s1, t) => (.ok none, s1, t)
    | (.error (.net m), s1, t) => (.error (.net m), s1, t)
    | (.ok _, s1, t) => (.ok s1.electric_reading_date, s1, t)
  else (.ok s.electric_reading_date, s, [])

/-- Model of `get_gas_read_date` (source lines 438-446). -/
def getGasReadDate (o : Oracle) (s : State) :
    Except Exc (Option String) × State × List Event :=
  if s.gas_reading_date = none then
    match fetchData o s with
    | (.error (.pseg _), s1, t) => (.ok none, s1, t)
    | (.error (.net m), s1, t) => (.error (.net m), s1, t)
    | (.ok _, s1, t) => (.ok s1.gas_reading_date, s1, t)
  else (.ok s.gas_reading_date, s, [])

/-!
Predicates for the overwrite invariant, and the concrete fixtures used by
witnesses and counterexamples.
-/

/-- A field evolves legally: unchanged, or overwritten by a truthy value. -/
def fieldOk (a b : Option String) : Prop := b = a ∨ truthy b = true

/-- All six data fields evolve legally between two states. -/
def dataOk (s t : State) : Prop :=
  fieldOk s.electric_usage t.electric_usage ∧
  fieldOk s.electric_cost t.electric_cost ∧
  fieldOk s.electric_reading_date t.electric_reading_date ∧
  fieldOk s.gas_usage t.gas_usage ∧
  fieldOk s.gas_cost t.gas_cost ∧
  fieldOk s.gas_reading_date t.gas_reading_date

/-- The six data fields, for stating that an operation leaves them all alone. -/
def dataFields (s : State) :
    Option String × Option String × Option String × Option String × Option String ×
      Option String :=
  (s.electric_usage, s.electric_cost, s.electric_reading_date,
   s.gas_usage, s.gas_cost, s.gas_reading_date)

/-- A dashboard body whose electric section supplies only a usage value. -/
def dashFixture : String :=
  "<div class=\"electric-section\"><span class=\"usage-value\">100 kWh</span></div></div>"

/-- An electric-page body supplying a (different) usage and a cost. -/
def elecFixture : String :=
  "<span class=\"usage-value\">555 kWh</span><span class=\"cost-value\">$42.10</span>"

/-- A successful response carrying the given body. -/
def respOf (t : String) : Response :=
  { status := 200, url := "https://nj.myaccount.pseg.com/x", text := t, respCookies := [] }

/-- Fixture oracle: dashboard with partial electric data, electric page with
the rest, gas page unreachable. -/
def oracleC3 : Oracle :=
  { loginPage := Except.error "unused", loginPost := Except.error "unused",
    loginDashCheck := Except.error "unused",
    dashboard := Except.ok (respOf dashFixture),
    electricPage := Except.ok (respOf elecFixture),
    gasPage := Except.error "gas page down" }

/-- A client that has already logged in. -/
def stateAuth : State := { initState "user" "pw" with authenticated := true }

/-- A freshly constructed client. -/
def stateFresh : State := initState "user" "pw"

/-- Oracle where every request raises a network error. -/
def oracleNetFail : Oracle :=
  { loginPage := Except.error "timeout", loginPost := Except.error "timeout",
    loginDashCheck := Except.error "timeout", dashboard := Except.error "timeout",
    electricPage := Except.error "timeout", gasPage := Except.error "timeout" }

/-- A login-page-like response: HTTP 200, URL still on `/user/login`, no
dashboard redirect. -/
def landingResp : Response :=
  { status := 200, url := "https://nj.myaccount.pseg.com/user/login", text := "",
    respCookies := [] }

/-- Oracle on which `login` fails through its explicit
"could not access dashboard" path. -/
def oracleLoginFail : Oracle :=
  { loginPage := Except.ok landingResp, loginPost := Except.ok landingResp,
    loginDashCheck := Except.ok landingResp,
    dashboard := Except.error "down", electricPage := Except.error "down",
    gasPage := Except.error "down" }

/-- A client whose stored electric usage is the negative portal string. -/
def stateNeg : State := { initState "user" "pw" with electric_usage := some "-5.0" }

end PSEG

/-!
Supporting lemmas.
-/

namespace PSEG

theorem login_trace (o : Oracle) (s : State) : (login o s).2.2 = [Event.loginCall] := by
  rcases hb : loginBody o s with ⟨r, s1⟩
  cases r <;> simp [login, hb]

theorem fetchBody_trace (o : Oracle) (s : State) :
    (fetchBody o s).2.2 = [] ∨ (fetchBody o s).2.2 = [Event.loginCall] := by
  simp only [fetchBody]
  by_cases h : s.authenticated
  · simp [h]
  · simp only [h, if_false]
    have ht := login_trace o s
    rcases hl : login o s with ⟨r, s1, t1⟩
    rw [hl] at ht
    cases r <;> simp_all

theorem fieldOk_refl (a : Option String) : fieldOk a a := Or.inl rfl

theorem fieldOk_trans {a b c : Option String} (h1 : fieldOk a b) (h2 : fieldOk b c) :
    fieldOk a c := by
  rcases h2 with h2 | h2
  · rcases h1 with h1 | h1
    · exact Or.inl (h2.trans h1)
    · exact Or.inr (h2 ▸ h1)
  · exact Or.inr h2

theorem dataOk_refl (s : State) : dataOk s s :=
  ⟨fieldOk_refl _, fieldOk_refl _, fieldOk_refl _, fieldOk_refl _, fieldOk_refl _,
   fieldOk_refl _⟩

theorem dataOk_trans {s t u : State} (h1 : dataOk s t) (h2 : dataOk t u) : dataOk s u :=
  ⟨fieldOk_trans h1.1 h2.1, fieldOk_trans h1.2.1 h2.2.1, fieldOk_trans h1.2.2.1 h2.2.2.1,
   fieldOk_trans h1.2.2.2.1 h2.2.2.2.1, fieldOk_trans h1.2.2.2.2.1 h2.2.2.2.2.1,
   fieldOk_trans h1.2.2.2.2.2 h2.2.2.2.2.2⟩

theorem updateUtilityData_dataOk (typ : String) (u c d : Option String) (s : State) :
    dataOk s (updateUtilityData typ u c d s) := by
  unfold updateUtilityData dataOk fieldOk
  split_ifs <;> simp_all

theorem extractAndProcessSection_dataOk (html cls typ : String) (s : State) :
    dataOk s (extractAndProcessSection html cls typ s) := by
  unfold extractAndProcessSection
  split
  · exact dataOk_refl s
  · exact updateUtilityData_dataOk _ _ _ _ _

theorem fetchDashboardData_dataOk (r : ReqResult) (s : State) :
    dataOk s (fetchDashboardData r s) := by
  cases r with
  | error m => exact dataOk_refl s
  | ok resp =>
    simp only [fetchDashboardData]
    split
    · exact dataOk_refl s
    · exact dataOk_trans
        (extractAndProcessSection_dataOk resp.text "electric-section" "electric"
          (addCookies s resp))
        (extractAndProcessSection_dataOk resp.text "gas-section" "gas" _)

theorem fetchElectricData_dataOk (r : ReqResult) (s : State) :
    dataOk s (fetchElectricData r s) := by
  cases r with
  | error m => exact dataOk_refl s
  | ok resp =>
    simp only [fetchElectricData]
    split
    · exact dataOk_refl s
    · unfold dataOk fieldOk
      split_ifs <;> simp_all [addCookies]

theorem fetchGasData_dataOk (r : ReqResult) (s : State) :
    dataOk s (fetchGasData r s) := by
  cases r with
  | error m => exact dataOk_refl s
  | ok resp =>
    simp only [fetchGasData]
    split
    · exact dataOk_refl s
    · unfold dataOk fieldOk
      split_ifs <;> simp_all [addCookies]

theorem loginBody_dataFields (o : Oracle) (s : State) :
    dataFields (loginBody o s).2 = dataFields s := by
  unfold loginBody
  repeat' split
  all_goals rfl

theorem login_dataFields (o : Oracle) (s : State) :
    dataFields (login o s).2.1 = dataFields s := by
  have h := loginBody_dataFields o s
  rcases hb : loginBody o s with ⟨r, s1⟩
  rw [hb] at h
  cases r <;> simp [login, hb] <;> exact h

theorem logout_dataFields (s : State) : dataFields (logout s).1 = dataFields s := rfl

theorem dataFields_dataOk {s t : State} (h : dataFields t = dataFields s) : dataOk s t := by
  simp only [dataFields, Prod.mk.injEq] at h
  obtain ⟨h1, h2, h3, h4, h5, h6⟩ := h
  exact ⟨Or.inl h1, Or.inl h2, Or.inl h3, Or.inl h4, Or.inl h5, Or.inl h6⟩

theorem dataOk_ite (c : Prop) [Decidable c] (f : State → State)
    (hf : ∀ u, dataOk u (f u)) (u : State) : dataOk u (if c then f u else u) := by
  split
  · exact hf u
  · exact dataOk_refl u

theorem fetchCore_dataOk (o : Oracle) (s : State) : dataOk s (fetchCore o s) := by
  simp only [fetchCore]
  exact dataOk_trans
    (dataOk_trans (fetchDashboardData_dataOk o.dashboard s)
      (dataOk_ite _ (fetchElectricData o.electricPage)
        (fetchElectricData_dataOk o.electricPage) _))
    (dataOk_ite _ (fetchGasData o.gasPage) (fetchGasData_dataOk o.gasPage) _)

theorem fetchBody_dataOk (o : Oracle) (s : State) : dataOk s (fetchBody o s).2.1 := by
  simp only [fetchBody]
  by_cases h : s.authenticated
  · simp only [h, if_true]
    exact fetchCore_dataOk o s
  · simp only [h, if_false]
    have hl := login_dataFields o s
    rcases hlog : login o s with ⟨r, s1, t1⟩
    rw [hlog] at hl
    cases r with
    | error e => exact dataFields_dataOk hl
    | ok b => exact dataOk_trans (dataFields_dataOk hl) (fetchCore_dataOk o s1)

theorem fetchGasData_electric (r : ReqResult) (s : State) :
    (fetchGasData r s).electric_usage = s.electric_usage ∧
    (fetchGasData r s).electric_cost = s.electric_cost := by
  cases r with
  | error m => exact ⟨rfl, rfl⟩
  | ok resp =>
    simp only [fetchGasData]
    split
    · exact ⟨rfl, rfl⟩
    · split_ifs <;> exact ⟨rfl, rfl⟩

theorem pyFloatDigits_intFrac (a b : List Char) (s : String)
    (hs : splitOnChar '.' s.data = [a, b]) (ha : a.all Char.isDigit = true)
    (hb : b.all Char.isDigit = true) (hne : (!a.isEmpty || !b.isEmpty) = true) :
    pyFloatDigits s =
      some ((natOfDigits a : ℚ) + (natOfDigits b : ℚ) / (10 : ℚ) ^ b.length) := by
  simp [pyFloatDigits, hs, ha, hb, hne]

theorem pyF_dollar : pyFloatDigits (filterNumeric "$123.45") = some (12345 / 100 : ℚ) := by
  rw [show filterNumeric "$123.45" = "123.45" from rfl]
  rw [pyFloatDigits_intFrac ['1', '2', '3'] ['4', '5'] "123.45" rfl rfl rfl rfl]
  rw [show natOfDigits ['1', '2', '3'] = 123 from rfl,
    show natOfDigits ['4', '5'] = 45 from rfl,
    show (['4', '5'] : List Char).length = 2 from rfl]
  norm_num

theorem pyF_plain : pyFloatDigits (filterNumeric "123.45") = some (12345 / 100 : ℚ) := by
  rw [show filterNumeric "123.45" = "123.45" from rfl]
  rw [pyFloatDigits_intFrac ['1', '2', '3'] ['4', '5'] "123.45" rfl rfl rfl rfl]
  rw [show natOfDigits ['1', '2', '3'] = 123 from rfl,
    show natOfDigits ['4', '5'] = 45 from rfl,
    show (['4', '5'] : List Char).length = 2 from rfl]
  norm_num

theorem pyF_comma : pyFloatDigits (filterNumeric "1,234.56") = some (123456 / 100 : ℚ) := by
  rw [show filterNumeric "1,234.56" = "1234.56" from rfl]
  rw [pyFloatDigits_intFrac ['1', '2', '3', '4'] ['5', '6'] "1234.56" rfl rfl rfl rfl]
  rw [show natOfDigits ['1', '2', '3', '4'] = 1234 from rfl,
    show natOfDigits ['5', '6'] = 56 from rfl,
    show (['5', '6'] : List Char).length = 2 from rfl]
  norm_num

theorem pyF_neg : pyFloatDigits (filterNumeric "-5.0") = some 5 := by
  rw [show filterNumeric "-5.0" = "5.0" from rfl]
  rw [pyFloatDigits_intFrac ['5'] ['0'] "5.0" rfl rfl rfl rfl]
  rw [show natOfDigits ['5'] = 5 from rfl, show natOfDigits ['0'] = 0 from rfl,
    show (['0'] : List Char).length = 1 from rfl]
  norm_num

theorem fetchData_error_pseg (o : Oracle) (s : State) (e : Exc)
    (h : (fetchData o s).1 = Except.error e) : e.isPseg = true := by
  rcases hb : fetchBody o s with ⟨r, s1, t1⟩
  cases r with
  | error e0 =>
    simp only [fetchData, hb] at h
    injection h with h2
    subst h2
    cases e0 <;> rfl
  | ok rr => simp [fetchData, hb] at h

theorem fetchData_trace_fetchCall (o : Oracle) (s : State) :
    ((fetchData o s).2.2).count Event.fetchCall = 1 := by
  have ht := fetchBody_trace o s
  rcases hb : fetchBody o s with ⟨r, s1, t1⟩
  rw [hb] at ht
  replace ht : t1 = [] ∨ t1 = [Event.loginCall] := by simpa using ht
  cases r <;> simp only [fetchData, hb] <;>
    rcases ht with ht | ht <;> subst ht <;> simp [logout]

theorem parseNumericField_falsy {f : Option String} (h : truthy f = false) :
    parseNumericField f = none := by
  cases f with
  | none => rfl
  | some v =>
    simp [truthy] at h
    simp [parseNumericField, h]

theorem parseNumericField_parse_none (w : String)
    (h : pyFloatDigits (filterNumeric w) = none) : parseNumericField (some w) = none := by
  by_cases hw : w = ""
  · simp [parseNumericField, hw]
  · simp [parseNumericField, hw, h]

end PSEG

namespace PSEG

theorem getElectricUsage_lazy (o : Oracle) (s : State) :
    (∃ v, (getElectricUsage o s).1 = Except.ok v) ∧
    ((getElectricUsage o s).2.2).count Event.fetchCall =
      (if s.electric_usage = none then 1 else 0) ∧
    (truthy ((getElectricUsage o s).2.1).electric_usage = false →
      (getElectricUsage o s).1 = Except.ok none) ∧
    (∀ w, ((getElectricUsage o s).2.1).electric_usage = some w →
      pyFloatDigits (filterNumeric w) = none → (getElectricUsage o s).1 = Except.ok none) := by
  by_cases hf : s.electric_usage = none
  · have hp := fetchData_error_pseg o s
    have htc := fetchData_trace_fetchCall o s
    rcases hfd : fetchData o s with ⟨r, s1, t⟩
    rw [hfd] at htc
    simp only at htc
    cases r with
    | error e =>
      have hps : e.isPseg = true := by
        apply hp
        rw [hfd]
      cases e with
      | net m => simp [Exc.isPseg] at hps
      | pseg m =>
        simp only [getElectricUsage, hf, if_true, hfd]
        exact ⟨⟨none, rfl⟩, by simp [hf, htc], fun _ => trivial, fun _ _ _ => trivial⟩
    | ok rr =>
      simp only [getElectricUsage, hf, if_true, hfd]
      refine ⟨⟨parseNumericField s1.electric_usage, rfl⟩, by simp [hf, htc], ?_, ?_⟩
      · intro hfalsy
        simp [parseNumericField_falsy hfalsy]
      · intro w hw hparse
        simp [hw, parseNumericField_parse_none w hparse]
  · simp only [getElectricUsage, hf, if_false]
    refine ⟨⟨parseNumericField s.electric_usage, rfl⟩, by simp [hf], ?_, ?_⟩
    · intro hfalsy
      simp [parseNumericField_falsy hfalsy]
    · intro w hw hparse
      simp [hw, parseNumericField_parse_none w hparse]

theorem getElectricCost_lazy (o : Oracle) (s : State) :
    (∃ v, (getElectricCost o s).1 = Except.ok v) ∧
    ((getElectricCost o s).2.2).count Event.fetchCall =
      (if s.electric_cost = none then 1 else 0) ∧
    (truthy ((getElectricCost o s).2.1).electric_cost = false →
      (getElectricCost o s).1 = Except.ok none) ∧
    (∀ w, ((getElectricCost o s).2.1).electric_cost = some w →
      pyFloatDigits (filterNumeric w) = none → (getElectricCost o s).1 = Except.ok none) := by
  by_cases hf : s.electric_cost = none
  · have hp := fetchData_error_pseg o s
    have htc := fetchData_trace_fetchCall o s
    rcases hfd : fetchData o s with ⟨r, s1, t⟩
    rw [hfd] at htc
    simp only at htc
    cases r with
    | error e =>
      have hps : e.isPseg = true := by
        apply hp
        rw [hfd]
      cases e with
      | net m => simp [Exc.isPseg] at hps
      | pseg m =>
        simp only [getElectricCost, hf, if_true, hfd]
        exact ⟨⟨none, rfl⟩, by simp [hf, htc], fun _ => trivial, fun _ _ _ => trivial⟩
    | ok rr =>
      simp only [getElectricCost, hf, if_true, hfd]
      refine ⟨⟨parseNumericField s1.electric_cost, rfl⟩, by simp [hf, htc], ?_, ?_⟩
      · intro hfalsy
        simp [parseNumericField_falsy hfalsy]
      · intro w hw hparse
        simp [hw, parseNumericField_parse_none w hparse]
  · simp only [getElectricCost, hf, if_false]
    refine ⟨⟨parseNumericField s.electric_cost, rfl⟩, by simp [hf], ?_, ?_⟩
    · intro hfalsy
      simp [parseNumericField_falsy hfalsy]
    · intro w hw hparse
      simp [hw, parseNumericField_parse_none w hparse]

theorem getGasUsage_lazy (o : Oracle) (s : State) :
    (∃ v, (getGasUsage o s).1 = Except.ok v) ∧
    ((getGasUsage o s).2.2).count Event.fetchCall =
      (if s.gas_usage = none then 1 else 0) ∧
    (truthy ((getGasUsage o s).2.1).gas_usage = false →
      (getGasUsage o s).1 = Except.ok none) ∧
    (∀ w, ((getGasUsage o s).2.1).gas_usage = some w →
      pyFloatDigits (filterNumeric w) = none → (getGasUsage o s).1 = Except.ok none) := by
  by_cases hf : s.gas_usage = none
  · have hp := fetchData_error_pseg o s
    have htc := fetchData_trace_fetchCall o s
    rcases hfd : fetchData o s with ⟨r, s1, t⟩
    rw [hfd] at htc
    simp only at htc
    cases r with
    | error e =>
      have hps : e.isPseg = true := by
        apply hp
        rw [hfd]
      cases e with
      | net m => simp [Exc.isPseg] at hps
      | pseg m =>
        simp only [getGasUsage, hf, if_true, hfd]
        exact ⟨⟨none, rfl⟩, by simp [hf, htc], fun _ => trivial, fun _ _ _ => trivial⟩
    | ok rr =>
      simp only [getGasUsage, hf, if_true, hfd]
      refine ⟨⟨parseNumericField s1.gas_usage, rfl⟩, by simp [hf, htc], ?_, ?_⟩
      · intro hfalsy
        simp [parseNumericField_falsy hfalsy]
      · intro w hw hparse
        simp [hw, parseNumericField_parse_none w hparse]
  · simp only [getGasUsage, hf, if_false]
    refine ⟨⟨parseNumericField s.gas_usage, rfl⟩, by simp [hf], ?_, ?_⟩
    · intro hfalsy
      simp [parseNumericField_falsy hfalsy]
    · intro w hw hparse
      simp [hw, parseNumericField_parse_none w hparse]

theorem getGasCost_lazy (o : Oracle) (s : State) :
    (∃ v, (getGasCost o s).1 = Except.ok v) ∧
    ((getGasCost o s).2.2).count Event.fetchCall =
      (if s.gas_cost = none then 1 else 0) ∧
    (truthy ((getGasCost o s).2.1).gas_cost = false →
      (getGasCost o s).1 = Except.ok none) ∧
    (∀ w, ((getGasCost o s).2.1).gas_cost = some w →
      pyFloatDigits (filterNumeric w) = none → (getGasCost o s).1 = Except.ok none) := by
  by_cases hf : s.gas_cost = none
  · have hp := fetchData_error_pseg o s
    have htc := fetchData_trace_fetchCall o s
    rcases hfd : fetchData o s with ⟨r, s1, t⟩
    rw [hfd] at htc
    simp only at htc
    cases r with
    | error e =>
      have hps : e.isPseg = true := by
        apply hp
        rw [hfd]
      cases e with
      | net m => simp [Exc.isPseg] at hps
      | pseg m =>
        simp only [getGasCost, hf, if_true, hfd]
        exact ⟨⟨none, rfl⟩, by simp [hf, htc], fun _ => trivial, fun _ _ _ => trivial⟩
    | ok rr =>
      simp only [getGasCost, hf, if_true, hfd]
      refine ⟨⟨parseNumericField s1.gas_cost, rfl⟩, by simp [hf, htc], ?_, ?_⟩
      · intro hfalsy
        simp [parseNumericField_falsy hfalsy]
      · intro w hw hparse
        simp [hw, parseNumericField_parse_none w hparse]
  · simp only [getGasCost, hf, if_false]
    refine ⟨⟨parseNumericField s.gas_cost, rfl⟩, by simp [hf], ?_, ?_⟩
    · intro hfalsy
      simp [parseNumericField_falsy hfalsy]
    · intro w hw hparse
      simp [hw, parseNumericField_parse_none w hparse]

theorem getElectricReadDate_lazy (o : Oracle) (s : State) :
    (∃ v, (getElectricReadDate o s).1 = Except.ok v) ∧
    ((getElectricReadDate o s).2.2).count Event.fetchCall =
      (if s.electric_reading_date = none then 1 else 0) ∧
    (((getElectricReadDate o s).2.1).electric_reading_date = none →
      (getElectricReadDate o s).1 = Except.ok none) := by
  by_cases hf : s.electric_reading_date = none
  · have hp := fetchData_error_pseg o s
    have htc := fetchData_trace_fetchCall o s
    rcases hfd : fetchData o s with ⟨r, s1, t⟩
    rw [hfd] at htc
    simp only at htc
    cases r with
    | error e =>
      have hps : e.isPseg = true := by
        apply hp
        rw [hfd]
      cases e with
      | net m => simp [Exc.isPseg] at hps
      | pseg m =>
        simp only [getElectricReadDate, hf, if_true, hfd]
        exact ⟨⟨none, rfl⟩, by simp [hf, htc], fun _ => trivial⟩
    | ok rr =>
      simp only [getElectricReadDate, hf, if_true, hfd]
      refine ⟨⟨s1.electric_reading_date, rfl⟩, by simp [hf, htc], ?_⟩
      intro hnone
      simp [hnone]
  · simp only [getElectricReadDate, hf, if_false]
    refine ⟨⟨s.electric_reading_date, rfl⟩, by simp [hf], ?_⟩
    intro hnone
    exact hnone.elim

theorem getGasReadDate_lazy (o : Oracle) (s : State) :
    (∃ v, (getGasReadDate o s).1 = Except.ok v) ∧
    ((getGasReadDate o s).2.2).count Event.fetchCall =
      (if s.gas_reading_date = none then 1 else 0) ∧
    (((getGasReadDate o s).2.1).gas_reading_date = none →
      (getGasReadDate o s).1 = Except.ok none) := by
  by_cases hf : s.gas_reading_date = none
  · have hp := fetchData_error_pseg o s
    have htc := fetchData_trace_fetchCall o s
    rcases hfd : fetchData o s with ⟨r, s1, t⟩
    rw [hfd] at htc
    simp only at htc
    cases r with
    | error e =>
      have hps : e.isPseg = true := by
        apply hp
        rw [hfd]
      cases e with
      | net m => simp [Exc.isPseg] at hps
      | pseg m =>
        simp only [getGasReadDate, hf, if_true, hfd]
        exact ⟨⟨none, rfl⟩, by simp [hf, htc], fun _ => trivial⟩
    | ok rr =>
      simp only [getGasReadDate, hf, if_true, hfd]
      refine ⟨⟨s1.gas_reading_date, rfl⟩, by simp [hf, htc], ?_⟩
      intro hnone
      simp [hnone]
  · simp only [getGasReadDate, hf, if_false]
    refine ⟨⟨s.gas_reading_date, rfl⟩, by simp [hf], ?_⟩
    intro hnone
    exact hnone.elim

theorem pyFloatDigits_nonneg {s : String} {q : ℚ} (h : pyFloatDigits s = some q) :
    0 ≤ q := by
  unfold pyFloatDigits at h
  split at h
  · split_ifs at h
    · injection h with h2
      subst h2
      positivity
  · split_ifs at h
    · injection h with h2
      subst h2
      positivity
  · simp at h

theorem parseNumericField_nonneg {f : Option String} {q : ℚ}
    (h : parseNumericField f = some q) : 0 ≤ q := by
  cases f with
  | none => simp [parseNumericField] at h
  | some v =>
    simp only [parseNumericField] at h
    split_ifs at h
    · exact pyFloatDigits_nonneg h

theorem getElectricUsage_nonneg (o : Oracle) (s : State) (q : ℚ)
    (h : (getElectricUsage o s).1 = Except.ok (some q)) : 0 ≤ q := by
  by_cases hf : s.electric_usage = none
  · rcases hfd : fetchData o s with ⟨r, s1, t⟩
    cases r with
    | error e =>
      cases e with
      | net m => simp [getElectricUsage, hf, hfd] at h
      | pseg m => simp [getElectricUsage, hf, hfd] at h
    | ok rr =>
      simp only [getElectricUsage, hf, if_true, hfd] at h
      injection h with h2
      exact parseNumericField_nonneg h2
  · simp only [getElectricUsage, hf, if_false] at h
    injection h with h2
    exact parseNumericField_nonneg h2

theorem getElectricCost_nonneg (o : Oracle) (s : State) (q : ℚ)
    (h : (getElectricCost o s).1 = Except.ok (some q)) : 0 ≤ q := by
  by_cases hf : s.electric_cost = none
  · rcases hfd : fetchData o s with ⟨r, s1, t⟩
    cases r with
    | error e =>
      cases e with
      | net m => simp [getElectricCost, hf, hfd] at h
      | pseg m => simp [getElectricCost, hf, hfd] at h
    | ok rr =>
      simp only [getElectricCost, hf, if_true, hfd] at h
      injection h with h2
      exact parseNumericField_nonneg h2
  · simp only [getElectricCost, hf, if_false] at h
    injection h with h2
    exact parseNumericField_nonneg h2

theorem getGasUsage_nonneg (o : Oracle) (s : State) (q : ℚ)
    (h : (getGasUsage o s).1 = Except.ok (some q)) : 0 ≤ q := by
  by_cases hf : s.gas_usage = none
  · rcases hfd : fetchData o s with ⟨r, s1, t⟩
    cases r with
    | error e =>
      cases e with
      | net m => simp [getGasUsage, hf, hfd] at h
      | pseg m => simp [getGasUsage, hf, hfd] at h
    | ok rr =>
      simp only [getGasUsage, hf, if_true, hfd] at h
      injection h with h2
      exact parseNumericField_nonneg h2
  · simp only [getGasUsage, hf, if_false] at h
    injection h with h2
    exact parseNumericField_nonneg h2

theorem getGasCost_nonneg (o : Oracle) (s : State) (q : ℚ)
    (h : (getGasCost o s).1 = Except.ok (some q)) : 0 ≤ q := by
  by_cases hf : s.gas_cost = none
  · rcases hfd : fetchData o s with ⟨r, s1, t⟩
    cases r with
    | error e =>
      cases e with
      | net m => simp [getGasCost, hf, hfd] at h
      | pseg m => simp [getGasCost, hf, hfd] at h
    | ok rr =>
      simp only [getGasCost, hf, if_true, hfd] at h
      injection h with h2
      exact parseNumericField_nonneg h2
  · simp only [getGasCost, hf, if_false] at h
    injection h with h2
    exact parseNumericField_nonneg h2

end PSEG

/-!
The claims.
-/

namespace PSEG

/-- C1: every execution of `fetch_data`, whether it returns the merged
reading mapping or raises, invokes the logout/session-release operation
exactly once, on every exit path — the `finally` block runs `logout` once
after the body, after a login failure, and after any wrapped exception. -/
theorem claim1_fetch_data_calls_logout_exactly_once (o : Oracle) (s : State) :
    ((fetchData o s).2.2).count Event.logoutCall = 1 := by
  have ht := fetchBody_trace o s
  rcases hb : fetchBody o s with ⟨r, s1, t1⟩
  rw [hb] at ht
  replace ht : t1 = [] ∨ t1 = [Event.loginCall] := by simpa using ht
  cases r <;> simp only [fetchData, hb] <;>
    rcases ht with ht | ht <;> subst ht <;> simp [logout]

/-- C2: within a single `fetch_data` cycle a stored field is only ever
overwritten with a non-empty (truthy) newly-extracted value — at the
`_update_utility_data` step each field is either untouched or set to the
truthy extracted value, and across the whole cycle every field of the final
state is either the initial value or truthy, so an absent extraction never
clobbers a previously known non-empty value. -/
theorem claim2_fields_overwritten_only_with_truthy_values :
    (∀ (typ : String) (u c d : Option String) (s0 : State),
      ((updateUtilityData typ u c d s0).electric_usage = s0.electric_usage ∨
        (truthy u = true ∧ (updateUtilityData typ u c d s0).electric_usage = u)) ∧
      ((updateUtilityData typ u c d s0).electric_cost = s0.electric_cost ∨
        (truthy c = true ∧ (updateUtilityData typ u c d s0).electric_cost = c)) ∧
      ((updateUtilityData typ u c d s0).electric_reading_date = s0.electric_reading_date ∨
        (truthy d = true ∧ (updateUtilityData typ u c d s0).electric_reading_date = d)) ∧
      ((updateUtilityData typ u c d s0).gas_usage = s0.gas_usage ∨
        (truthy u = true ∧ (updateUtilityData typ u c d s0).gas_usage = u)) ∧
      ((updateUtilityData typ u c d s0).gas_cost = s0.gas_cost ∨
        (truthy c = true ∧ (updateUtilityData typ u c d s0).gas_cost = c)) ∧
      ((updateUtilityData typ u c d s0).gas_reading_date = s0.gas_reading_date ∨
        (truthy d = true ∧ (updateUtilityData typ u c d s0).gas_reading_date = d))) ∧
    (∀ (o : Oracle) (s : State), dataOk s (fetchData o s).2.1) := by
  constructor
  · intro typ u c d s0
    simp only [updateUtilityData]
    split_ifs <;> simp_all
  · intro o s
    have hb1 := fetchBody_dataOk o s
    rcases hb : fetchBody o s with ⟨r, s1, t1⟩
    rw [hb] at hb1
    cases r with
    | error e =>
      simp only [fetchData, hb]
      refine dataOk_trans hb1 (dataFields_dataOk ?_)
      rw [logout_dataFields]
      cases e <;> rfl
    | ok rr =>
      simp only [fetchData, hb]
      exact dataOk_trans hb1 (dataFields_dataOk (logout_dataFields s1))

/-- C3: when the dashboard phase left `electric_usage` truthy and
`electric_cost` falsy, the electric-page step of the fallback chain fills
only the missing cost (when the page supplies a truthy one) and leaves the
dashboard usage untouched, whatever usage value the electric page reports. -/
theorem claim3_fallback_fills_only_missing_fields (o : Oracle) (s : State)
    (resp : Response) (hA : s.authenticated = true)
    (hre : o.electricPage = Except.ok resp) (hst : resp.status = 200)
    (hu : truthy (fetchDashboardData o.dashboard s).electric_usage = true)
    (hc : truthy (fetchDashboardData o.dashboard s).electric_cost = false)
    (hpc : truthy (extractDataFromHtml resp.text "electric").2.1 = true) :
    ∃ r : Readings, (fetchData o s).1 = Except.ok r ∧
      r.electric_usage = (fetchDashboardData o.dashboard s).electric_usage ∧
      r.electric_cost = (extractDataFromHtml resp.text "electric").2.1 := by
  have hElec :
      (fetchElectricData o.electricPage (fetchDashboardData o.dashboard s)).electric_usage =
        (fetchDashboardData o.dashboard s).electric_usage ∧
      (fetchElectricData o.electricPage (fetchDashboardData o.dashboard s)).electric_cost =
        (extractDataFromHtml resp.text "electric").2.1 := by
    rw [hre]
    simp only [fetchElectricData]
    simp [hst, addCookies, hu, hc, hpc]
    split <;> exact ⟨rfl, rfl⟩
  have hCore :
      (fetchCore o s).electric_usage = (fetchDashboardData o.dashboard s).electric_usage ∧
      (fetchCore o s).electric_cost = (extractDataFromHtml resp.text "electric").2.1 := by
    simp only [fetchCore, hc, Bool.not_false, Bool.or_true, Bool.true_or, if_true]
    constructor
    · split
      · rw [(fetchGasData_electric _ _).1, hElec.1]
      · exact hElec.1
    · split
      · rw [(fetchGasData_electric _ _).2, hElec.2]
      · exact hElec.2
  refine ⟨readingsOf (fetchCore o s), ?_, hCore.1, hCore.2⟩
  simp only [fetchData, fetchBody, hA, if_true]

/-- Witness for C3: on the fixture oracle the dashboard supplies only
`electric_usage = "100"`; the electric page reports usage `"555"` and cost
`"$42.10"`, and the returned mapping keeps the dashboard usage while taking
the page cost. -/
theorem claim3_witness :
    ∃ r : Readings, (fetchData oracleC3 stateAuth).1 = Except.ok r ∧
      r.electric_usage = (fetchDashboardData oracleC3.dashboard stateAuth).electric_usage ∧
      r.electric_cost = (extractDataFromHtml (respOf elecFixture).text "electric").2.1 :=
  claim3_fallback_fills_only_missing_fields oracleC3 stateAuth (respOf elecFixture)
    rfl rfl rfl (by decide) (by decide) (by decide)

/-- C4 counterexample: the claim says the pattern list is tried on the input
string and that whenever no pattern parses, the original string is returned
unchanged.  On `"2024-03-01T00:00:00"` none of the four patterns parses the
input, yet `_format_date` returns `"2024-03-01"` (it first strips the time
component at `T`), and on `""` it returns `None` rather than the original
string. -/
theorem claim4_counterexample :
    (parseISO "2024-03-01T00:00:00".data = none ∧
     parseMDY "2024-03-01T00:00:00".data = none ∧
     parseDMY "2024-03-01T00:00:00".data = none ∧
     parseBDY "2024-03-01T00:00:00".data = none) ∧
    formatDate "2024-03-01T00:00:00" = some "2024-03-01" ∧
    formatDate "2024-03-01T00:00:00" ≠ some "2024-03-01T00:00:00" ∧
    formatDate "" = none ∧ formatDate "" ≠ some "" := by decide

/-- C4 amended: for a non-empty input, `_format_date` first strips any time
component (the part from the first `T` on) and tries the ordered pattern
list `YYYY-MM-DD`, `MM/DD/YYYY`, `DD/MM/YYYY`, `Mon DD, YYYY` on the date
part; the first pattern that parses wins and is re-emitted as canonical
`YYYY-MM-DD` (so `"2024-03-01"`, `"03/01/2024"`, `"Mar 01, 2024"` all
normalize to `"2024-03-01"`); when no pattern parses the date part
(e.g. `"next month"`), the original string is returned unchanged; the empty
string yields `None`. -/
theorem claim4_amended_date_normalization :
    (∀ s : String, s ≠ "" → s.data.contains 'T' = false → tryParseDate s.data = none →
      formatDate s = some s) ∧
    (∀ (s : String) (ymd : Nat × Nat × Nat), s ≠ "" → s.data.contains 'T' = false →
      tryParseDate s.data = some ymd → formatDate s = some (emitDate ymd)) ∧
    (∀ (l : List Char) (ymd : Nat × Nat × Nat),
      parseISO l = some ymd → tryParseDate l = some ymd) ∧
    (∀ (l : List Char) (ymd : Nat × Nat × Nat), parseISO l = none →
      parseMDY l = some ymd → tryParseDate l = some ymd) ∧
    (∀ (l : List Char) (ymd : Nat × Nat × Nat), parseISO l = none → parseMDY l = none →
      parseDMY l = some ymd → tryParseDate l = some ymd) ∧
    (∀ (l : List Char) (ymd : Nat × Nat × Nat), parseISO l = none → parseMDY l = none →
      parseDMY l = none → parseBDY l = some ymd → tryParseDate l = some ymd) ∧
    formatDate "2024-03-01" = some "2024-03-01" ∧
    formatDate "03/01/2024" = some "2024-03-01" ∧
    formatDate "Mar 01, 2024" = some "2024-03-01" ∧
    formatDate "next month" = some "next month" ∧
    formatDate "" = none := by
  refine ⟨?_, ?_, ?_, ?_, ?_, ?_, by decide, by decide, by decide, by decide, by decide⟩
  · intro s hs hT hparse
    simp only [formatDate, hT]
    simp [hs, hparse]
  · intro s ymd hs hT hparse
    simp only [formatDate, hT]
    simp [hs, hparse]
  · intro l ymd h
    simp [tryParseDate, h]
  · intro l ymd h1 h2
    simp [tryParseDate, h1, h2]
  · intro l ymd h1 h2 h3
    simp [tryParseDate, h1, h2, h3]
  · intro l ymd h1 h2 h3 h4
    simp [tryParseDate, h1, h2, h3, h4]

/-- Witness for the amended C4, at the unparseable string and at a slashed
date. -/
theorem claim4_witness :
    formatDate "next month" = some "next month" ∧
    formatDate "03/01/2024" = some (emitDate (2024, 3, 1)) :=
  ⟨claim4_amended_date_normalization.1 "next month" (by decide) (by decide) (by decide),
   claim4_amended_date_normalization.2.1 "03/01/2024" (2024, 3, 1) (by decide) (by decide)
     (by decide)⟩

/-- C5: on any truthy stored string the four numeric getters return exactly
the result of stripping every character except digits and the decimal point
and parsing the remainder as a float; under that normalization `"$123.45"`,
`"123.45"` and `"1,234.56"` become the numbers `123.45`, `123.45` and
`1234.56`. -/
theorem claim5_getters_strip_then_parse :
    (∀ (o : Oracle) (s : State) (v : String), s.electric_usage = some v → v ≠ "" →
      (getElectricUsage o s).1 = Except.ok (pyFloatDigits (filterNumeric v))) ∧
    (∀ (o : Oracle) (s : State) (v : String), s.electric_cost = some v → v ≠ "" →
      (getElectricCost o s).1 = Except.ok (pyFloatDigits (filterNumeric v))) ∧
    (∀ (o : Oracle) (s : State) (v : String), s.gas_usage = some v → v ≠ "" →
      (getGasUsage o s).1 = Except.ok (pyFloatDigits (filterNumeric v))) ∧
    (∀ (o : Oracle) (s : State) (v : String), s.gas_cost = some v → v ≠ "" →
      (getGasCost o s).1 = Except.ok (pyFloatDigits (filterNumeric v))) ∧
    pyFloatDigits (filterNumeric "$123.45") = some (12345 / 100 : ℚ) ∧
    pyFloatDigits (filterNumeric "123.45") = some (12345 / 100 : ℚ) ∧
    pyFloatDigits (filterNumeric "1,234.56") = some (123456 / 100 : ℚ) := by
  refine ⟨?_, ?_, ?_, ?_, pyF_dollar, pyF_plain, pyF_comma⟩
  · intro o s v hv hne
    simp [getElectricUsage, hv, parseNumericField, hne]
  · intro o s v hv hne
    simp [getElectricCost, hv, parseNumericField, hne]
  · intro o s v hv hne
    simp [getGasUsage, hv, parseNumericField, hne]
  · intro o s v hv hne
    simp [getGasCost, hv, parseNumericField, hne]

/-- Witness for C5 at the stored string `"$123.45"`. -/
theorem claim5_witness :
    (getElectricUsage oracleC3 { stateAuth with electric_usage := some "$123.45" }).1 =
      Except.ok (pyFloatDigits (filterNumeric "$123.45")) :=
  claim5_getters_strip_then_parse.1 oracleC3
    { stateAuth with electric_usage := some "$123.45" } "$123.45" rfl (by decide)

/-- C6 counterexample: the claim says every `logout()` call proceeds to
invoke `quit()`; on a fresh client `logout` emits no `quit` call and leaves
the session unclosed. -/
theorem claim6_counterexample :
    ((logout stateFresh).2).count Event.quitCall = 0 ∧
    (logout stateFresh).1.sessionClosed = false := by decide

/-- C6 amended: `logout()` swallows every error it encounters (it is a total
operation raising nothing), clears the session cookies, the authenticated
flag and the auth token — but it does not invoke `quit()`: no `quit` event
is emitted and the session-closed flag is left exactly as it was, so session
release is a separate `quit()` call of the caller. -/
theorem claim6_amended_logout_without_quit (s : State) :
    logout s = ({ s with cookies := [], authenticated := false, auth_token := none },
      [Event.logoutCall]) ∧
    ((logout s).2).count Event.quitCall = 0 ∧
    (logout s).1.sessionClosed = s.sessionClosed :=
  ⟨rfl, rfl, rfl⟩

/-- C7 counterexample: the claim says a failed `login()` always leaves the
client unauthenticated with the session torn down; when the login-page
request raises a network error on a previously authenticated client, `login`
raises `PSEGError` but the `authenticated` flag is still `true`. -/
theorem claim7_counterexample :
    (login oracleNetFail stateAuth).1 =
      Except.error (Exc.pseg "Network error during login: timeout") ∧
    (login oracleNetFail stateAuth).2.1.authenticated = true := by decide

/-- C7 amended: every failure of `login()` raises `PSEGError` (never a bare
network exception); on the explicit marker-absent path (login page loaded,
no dashboard redirect, dashboard probe unsuccessful) the client is marked
unauthenticated before raising; on exception paths the `authenticated` flag
keeps its prior value and the freshly reset session is not torn down; and a
subsequent `quit()` closes the session without raising. -/
theorem claim7_amended_login_failure :
    (∀ (o : Oracle) (s : State) (e : Exc), (login o s).1 = Except.error e →
      e.isPseg = true) ∧
    (∀ (o : Oracle) (s : State) (page resp dresp : Response),
      o.loginPage = Except.ok page → page.status = 200 →
      o.loginPost = Except.ok resp →
      strContains resp.url "https://nj.myaccount.pseg.com/dashboard" = false →
      strContains resp.url "dashboard" = false →
      o.loginDashCheck = Except.ok dresp →
      (dresp.status = 200 && !(strContains (pyLower dresp.url) "login")) = false →
      (∃ e, (login o s).1 = Except.error e) ∧ (login o s).2.1.authenticated = false) ∧
    (∀ s : State, quit s = ({ s with sessionClosed := true }, [Event.quitCall])) := by
  refine ⟨?_, ?_, fun s => rfl⟩
  · intro o s e h
    rcases hb : loginBody o s with ⟨r, s1⟩
    cases r with
    | error e0 =>
      simp only [login, hb] at h
      injection h with h2
      subst h2
      cases e0 <;> rfl
    | ok b => simp [login, hb] at h
  · intro o s page resp dresp hp hps hr hu1 hu2 hd hdc
    simp only [login, loginBody, hp, hps, hr, hu1, hu2, hd, hdc]
    simp only [ne_eq]
    norm_num
    cases hm : searchGroup errorMsgPattern resp.text <;> simp [hm]

/-- Witness for the amended C7: the explicit failure path on the fixture
oracle marks the client unauthenticated, and the network-failure exception
is a `PSEGError`. -/
theorem claim7_witness :
    ((∃ e, (login oracleLoginFail stateFresh).1 = Except.error e) ∧
      (login oracleLoginFail stateFresh).2.1.authenticated = false) ∧
    (Exc.pseg "Network error during login: timeout").isPseg = true :=
  ⟨claim7_amended_login_failure.2.1 oracleLoginFail stateFresh landingResp landingResp
      landingResp rfl rfl rfl (by decide) (by decide) rfl (by decide),
   claim7_amended_login_failure.1 oracleNetFail stateAuth
      (Exc.pseg "Network error during login: timeout") (by decide)⟩

/-- C8: per-field extraction never raises (it is total) and degrades each
field independently to absent — a missing locator for usage, cost or
reading date makes exactly that component `none`; a missing section leaves
the state untouched; and the two malformed fixtures show one field present
while the others are absent. -/
theorem claim8_extraction_degrades_to_absent :
    (∀ (html typ : String), searchGroup usagePattern html = none →
      (extractDataFromHtml html typ).1 = none) ∧
    (∀ (html typ : String), searchGroup costPattern html = none →
      (extractDataFromHtml html typ).2.1 = none) ∧
    (∀ (html typ : String), searchGroup datePattern html = none →
      (extractDataFromHtml html typ).2.2 = none) ∧
    (∀ (html cls typ : String) (s : State),
      searchMatch (sectionPattern cls) html = none →
      extractAndProcessSection html cls typ s = s) ∧
    extractDataFromHtml "<div>garbage" "electric" = (none, none, none) ∧
    extractDataFromHtml "<p class=\"cost-value\">$12.50</p>" "electric" =
      (none, some "12.50", none) := by
  refine ⟨?_, ?_, ?_, ?_, by decide, by decide⟩
  · intro html typ h
    simp [extractDataFromHtml, h]
  · intro html typ h
    simp [extractDataFromHtml, h]
  · intro html typ h
    simp [extractDataFromHtml, h]
  · intro html cls typ s h
    simp [extractAndProcessSection, h]

/-- Witness for C8 on a body with no usage locator and no section locator. -/
theorem claim8_witness :
    (extractDataFromHtml "<div>garbage" "electric").1 = none ∧
    extractAndProcessSection "<div>garbage" "electric-section" "electric" stateFresh =
      stateFresh :=
  ⟨claim8_extraction_degrades_to_absent.1 "<div>garbage" "electric" (by decide),
   claim8_extraction_degrades_to_absent.2.2.2.1 "<div>garbage" "electric-section" "electric"
     stateFresh (by decide)⟩

/-- C9: each of the six lazy getters returns without raising, triggers
`fetch_data` exactly when its stored field is `None` (trace count 1, else 0),
and returns absent when the field is falsy after the attempt or when numeric
parsing of the stored string fails. -/
theorem claim9_lazy_getters :
    (∀ (o : Oracle) (s : State),
      (∃ v, (getElectricUsage o s).1 = Except.ok v) ∧
      ((getElectricUsage o s).2.2).count Event.fetchCall =
        (if s.electric_usage = none then 1 else 0) ∧
      (truthy ((getElectricUsage o s).2.1).electric_usage = false →
        (getElectricUsage o s).1 = Except.ok none) ∧
      (∀ w, ((getElectricUsage o s).2.1).electric_usage = some w →
        pyFloatDigits (filterNumeric w) = none →
        (getElectricUsage o s).1 = Except.ok none)) ∧
    (∀ (o : Oracle) (s : State),
      (∃ v, (getElectricCost o s).1 = Except.ok v) ∧
      ((getElectricCost o s).2.2).count Event.fetchCall =
        (if s.electric_cost = none then 1 else 0) ∧
      (truthy ((getElectricCost o s).2.1).electric_cost = false →
        (getElectricCost o s).1 = Except.ok none) ∧
      (∀ w, ((getElectricCost o s).2.1).electric_cost = some w →
        pyFloatDigits (filterNumeric w) = none →
        (getElectricCost o s).1 = Except.ok none)) ∧
    (∀ (o : Oracle) (s : State),
      (∃ v, (getGasUsage o s).1 = Except.ok v) ∧
      ((getGasUsage o s).2.2).count Event.fetchCall =
        (if s.gas_usage = none then 1 else 0) ∧
      (truthy ((getGasUsage o s).2.1).gas_usage = false →
        (getGasUsage o s).1 = Except.ok none) ∧
      (∀ w, ((getGasUsage o s).2.1).gas_usage = some w →
        pyFloatDigits (filterNumeric w) = none →
        (getGasUsage o s).1 = Except.ok none)) ∧
    (∀ (o : Oracle) (s : State),
      (∃ v, (getGasCost o s).1 = Except.ok v) ∧
      ((getGasCost o s).2.2).count Event.fetchCall =
        (if s.gas_cost = none then 1 else 0) ∧
      (truthy ((getGasCost o s).2.1).gas_cost = false →
        (getGasCost o s).1 = Except.ok none) ∧
      (∀ w, ((getGasCost o s).2.1).gas_cost = some w →
        pyFloatDigits (filterNumeric w) = none →
        (getGasCost o s).1 = Except.ok none)) ∧
    (∀ (o : Oracle) (s : State),
      (∃ v, (getElectricReadDate o s).1 = Except.ok v) ∧
      ((getElectricReadDate o s).2.2).count Event.fetchCall =
        (if s.electric_reading_date = none then 1 else 0) ∧
      (((getElectricReadDate o s).2.1).electric_reading_date = none →
        (getElectricReadDate o s).1 = Except.ok none)) ∧
    (∀ (o : Oracle) (s : State),
      (∃ v, (getGasReadDate o s).1 = Except.ok v) ∧
      ((getGasReadDate o s).2.2).count Event.fetchCall =
        (if s.gas_reading_date = none then 1 else 0) ∧
      (((getGasReadDate o s).2.1).gas_reading_date = none →
        (getGasReadDate o s).1 = Except.ok none)) :=
  ⟨getElectricUsage_lazy, getElectricCost_lazy, getGasUsage_lazy, getGasCost_lazy,
   getElectricReadDate_lazy, getGasReadDate_lazy⟩

/-- Witness for C9: on a fresh client with an all-failing oracle the usage
getter fetches once and returns absent rather than an error. -/
theorem claim9_witness :
    (getElectricUsage oracleNetFail stateFresh).1 = Except.ok none ∧
    ((getElectricUsage oracleNetFail stateFresh).2.2).count Event.fetchCall =
      (if stateFresh.electric_usage = none then 1 else 0) :=
  ⟨(claim9_lazy_getters.1 oracleNetFail stateFresh).2.2.1 (by decide),
   (claim9_lazy_getters.1 oracleNetFail stateFresh).2.1⟩

/-- C10: every numeric value a usage/cost getter returns is non-negative —
the character filter keeps only digits and the decimal point, a minus sign
never survives, and the stored portal value `"-5.0"` is reported as `5`. -/
theorem claim10_numeric_getters_nonnegative :
    (∀ (o : Oracle) (s : State) (q : ℚ),
      (getElectricUsage o s).1 = Except.ok (some q) → 0 ≤ q) ∧
    (∀ (o : Oracle) (s : State) (q : ℚ),
      (getElectricCost o s).1 = Except.ok (some q) → 0 ≤ q) ∧
    (∀ (o : Oracle) (s : State) (q : ℚ),
      (getGasUsage o s).1 = Except.ok (some q) → 0 ≤ q) ∧
    (∀ (o : Oracle) (s : State) (q : ℚ),
      (getGasCost o s).1 = Except.ok (some q) → 0 ≤ q) ∧
    (getElectricUsage oracleNetFail stateNeg).1 = Except.ok (some 5) := by
  refine ⟨getElectricUsage_nonneg, getElectricCost_nonneg, getGasUsage_nonneg,
    getGasCost_nonneg, ?_⟩
  have h5 := pyF_neg
  simp [getElectricUsage, stateNeg, initState, parseNumericField, h5]

/-- Witness for C10 at the stored string `"-5.0"`. -/
theorem claim10_witness :
    0 ≤ (5 : ℚ) ∧ (getElectricUsage oracleNetFail stateNeg).1 = Except.ok (some 5) :=
  ⟨claim10_numeric_getters_nonnegative.1 oracleNetFail stateNeg 5
      claim10_numeric_getters_nonnegative.2.2.2.2,
   claim10_numeric_getters_nonnegative.2.2.2.2⟩

end PSEG
